import Mathlib

/-
Verification of the dea-notebooks repository (Jupyter notebooks for
Earth-observation analysis).  The notebooks are shallowly embedded:
pure per-pixel arithmetic becomes functions on ℚ (floating-point NaN is
modelled as `Option.none` where it matters; the claims under study only
concern finite values, which ℚ represents exactly), notebook loops become
folds over explicit state, and static facts about the notebooks (imports,
call sites, cell structure) are transcribed as concrete Lean data.
-/

namespace DeaNotebooks

/-! ## Spectral band indices

Per-pixel band arithmetic transcribed from the notebooks.  Each index is
written exactly as in its source cell. -/

/-- Coastal erosion notebook:
landsat_ds.water_index = (landsat_ds.green - landsat_ds.swir1) / (landsat_ds.green + landsat_ds.swir1) -/
def water_index_mndwi (green swir1 : ℚ) : ℚ := (green - swir1) / (green + swir1)

/-- Intertidal elevation notebook:
landsat_ds.water_index = (landsat_ds.green - landsat_ds.nir) / (landsat_ds.green + landsat_ds.nir) -/
def water_index_ndwi (green nir : ℚ) : ℚ := (green - nir) / (green + nir)

/-- Site-matching notebook:
ds_closest.ndci = (ds_closest.nbart_red_edge_1 - ds_closest.nbart_red) / (ds_closest.nbart_red_edge_1 + ds_closest.nbart_red) -/
def ndci (rededge red : ℚ) : ℚ := (rededge - red) / (rededge + red)

/-- NDVI.  The Forestry notebook computes it through the repository utility
calculate_indices (utils/dea_bandindices.py, not under src); the formula is the
one documented in the Forestry notebook itself: NDVI = (NIR - Red)/(NIR + Red). -/
def NDVI (nir red : ℚ) : ℚ := (nir - red) / (nir + red)

/-! ## get_rgb (Dask average-colour notebook) -/

/-- np.clip(x, 0, 1) as applied inside get_rgb. -/
def clip01 (x : ℚ) : ℚ := max 0 (min x 1)

/-- Python int() applied to a finite float: truncation toward zero. -/
def pyInt (q : ℚ) : ℤ := if 0 ≤ q then ⌊q⌋ else -⌊-q⌋

/-- One channel of get_rgb: int(np.clip(scaled_ds[band], 0, 1) * 255). -/
def rgb_channel (x : ℚ) : ℤ := pyInt (clip01 x * 255)

/-- A lowercase hexadecimal digit character (Python format code x). -/
def hex_digit (n : ℕ) : Char := if n < 10 then Char.ofNat (48 + n) else Char.ofNat (87 + n)

/-- Python format {:02x} applied to a channel value n with 0 ≤ n < 256:
two hexadecimal digits.  (For n ≥ 256 the Python format would emit more than
two digits; get_rgb only ever formats clipped channel values, proven < 256.) -/
def hex2 (n : ℤ) : List Char := [hex_digit (n.toNat / 16), hex_digit (n.toNat % 16)]

/-- get_rgb from the Dask average-colour notebook:
rgb_values = [int(np.clip(scaled_ds[band], 0, 1) * 255) for band in [red, green, blue]];
hex_value = format string # followed by the three {:02x} channel renderings. -/
def get_rgb (red green blue : ℚ) : (ℤ × ℤ × ℤ) × String :=
  let r := rgb_channel red
  let g := rgb_channel green
  let b := rgb_channel blue
  ((r, g, b), String.mk ('#' :: (hex2 r ++ hex2 g ++ hex2 b)))

/-! ## Forestry change-detection samples

The Forestry notebook splits the loaded NDVI time series at time_baseline.
An observation is modelled as a (timestamp, NDVI slice) pair; datetime64
timestamps are integers. -/

/-- baseline_sample = ds_s2.NDVI.sel(time = ds_s2.time <= np.datetime64(time_baseline)) -/
def baseline_sample (ds : List (Int × ℚ)) (time_baseline : Int) : List (Int × ℚ) :=
  ds.filter (fun o => decide (o.1 ≤ time_baseline))

/-- postbaseline_sample = ds_s2.NDVI.sel(time = ds_s2.time > np.datetime64(time_baseline)) -/
def postbaseline_sample (ds : List (Int × ℚ)) (time_baseline : Int) : List (Int × ℚ) :=
  ds.filter (fun o => decide (o.1 > time_baseline))

/-! ## Tide tagging

Timestamps and tide heights are rationals. -/

/-- Piecewise-linear interpolation over the hourly tide table
(tide_data_xr.interp with the default linear method; the table rows are the
time, tide_height records of the tide_file csv, times strictly increasing).
Timestamps outside the table range get a missing value (xarray yields NaN
there). -/
def interp_tide : List (ℚ × ℚ) → ℚ → Option ℚ
  | [], _ => none
  | [(x, y)], t => if t = x then some y else none
  | (x1, y1) :: (x2, y2) :: rest, t =>
    if t < x1 then none
    else if t ≤ x2 then some (y1 + (y2 - y1) * (t - x1) / (x2 - x1))
    else interp_tide ((x2, y2) :: rest) t

/-- Intertidal elevation notebook:
landsat_tideheights = tide_data_xr.interp(time=landsat_ds.time);
landsat_ds.tide_height = landsat_tideheights.tide_height.
The tagged dataset pairs every observation timestamp with its interpolated
tide height. -/
def tidal_tag_interp (tide_data : List (ℚ × ℚ)) (times : List ℚ) : List (ℚ × Option ℚ) :=
  times.map (fun t => (t, interp_tide tide_data t))

/-- Modelled from the spec: the coastal erosion notebook calls
waterline_funcs.tidal_tag, whose implementation (utils/waterline_funcs.py) is
not under src.  Per the spec, tide tagging attaches a modelled tide height,
obtained from the external OTPS TPXO9 tidal model, to the timestamp of each
satellite observation; the external model is abstracted as a function from
timestamps to heights. -/
def tidal_tag (otps_model : ℚ → ℚ) (times : List ℚ) : List (ℚ × ℚ) :=
  times.map (fun t => (t, otps_model t))

/-! ## Contour extraction (waterline / depth contours) -/

/-- One call to waterline_funcs.contour_extract as it appears in a notebook
cell, transcribed argument by argument from the source (dim is the keyword
only when the call passes it). -/
structure ContourExtractCall where
  z_values : List ℚ
  output_shp : String
  min_vertices : Nat
  dim : Option String
  deriving DecidableEq

/-- The contour_extract call of the coastal erosion notebook. -/
def coastal_contour_call : ContourExtractCall :=
  { z_values := [0], output_shp := "output_waterlines.shp", min_vertices := 50, dim := none }

/-- The contour_extract call of the intertidal elevation notebook. -/
def intertidal_contour_call : ContourExtractCall :=
  { z_values := [0], output_shp := "output_depthcontours.shp", min_vertices := 5,
    dim := some "tide_interval" }

/-- Every contour_extract call in the repository source: one in the coastal
erosion notebook (over the per-time-step summary rasters) and one in the
intertidal notebook (over the per-tidal-interval summary rasters). -/
def all_contour_calls : List ContourExtractCall := [coastal_contour_call, intertidal_contour_call]

/-- Modelled from the spec: the implementation of contour_extract
(utils/waterline_funcs.py) is not under src.  Per the spec it traces the
iso-value boundary at each requested z value through each slice of the summary
raster, producing one vector line per slice and z value; a produced line is
labelled with its slice and z value. -/
def contour_extract {α : Type} (z_values : List ℚ) (slices : List α) : List (α × ℚ) :=
  (slices.map (fun s => z_values.map (fun z => (s, z)))).flatten

/-! ## Do-it-yourself tutorial notebook (cell completeness) -/

/-- A statement of a tutorial code cell, abstracted to what matters for
executability: an assignment carries its target and, when present, its
right-hand side (rhs none transcribes a line such as coordinates = with
nothing after the equals sign, which is a Python SyntaxError until the analyst
fills it in); any other statement is kept as text. -/
inductive PyStmt where
  | assign (target : String) (rhs : Option String)
  | expr (code : String)
  deriving DecidableEq

/-- The code cells of the Do-it-yourself tutorial notebook, in listed order
(imports and calls abbreviated; assignment targets and right-hand-side
presence transcribed exactly). -/
def diy_cells : List (List PyStmt) :=
  [[.assign "coordinates" none],
   [.assign "box_size" none,
    .assign "centre_x" (some "coordinates[1]"),
    .assign "centre_y" (some "coordinates[0]"),
    .assign "bounding_box_x" (some "(centre_x - box_size, centre_x + box_size)"),
    .assign "bounding_box_y" (some "(centre_y - box_size, centre_y + box_size)")],
   [.assign "dc" (some "datacube.Datacube(app=do-it-yourself)"),
    .assign "dataset" (some "dc.load(product=s2a_nrt_granule, ...)")],
   [.expr "print(dataset)"],
   [.assign "time_step" none,
    .assign "bands" none,
    .expr "rgb(dataset, bands=bands, index=time_step, size=10)",
    .assign "time_string" (some "str(dataset.time.isel(time=time_step).values).split(.)[0]"),
    .assign "ax" (some "plt.gca()"),
    .expr "plt.show()"],
   [.assign "filename" (some "example.tiff"),
    .expr "helpers.write_geotiff(dataset=dataset.isel(time=time_step), filename=filename)"],
   [.assign "ndvi" none,
    .expr "plt.figure(figsize=(10,10))",
    .expr "ndvi.isel(time=time_step).plot()",
    .expr "plt.show()"]]

/-- The targets of assignments whose right-hand side is missing. -/
def incomplete_assignments (cells : List (List PyStmt)) : List String :=
  cells.flatten.filterMap (fun s =>
    match s with
    | .assign n none => some n
    | _ => none)

/-! ## Rainfall notebook (name resolution across cells) -/

/-- One code cell of a notebook, abstracted to name binding: the top-level
names the cell assigns or imports, and the previously bound top-level names
its code references. -/
structure NotebookCell where
  binds : List String
  uses : List String
  deriving DecidableEq

/-- The code cells of 09_Workflows/CumulativeMassResidualRainfall.ipynb in
listed order: imports; the query dictionary; the datacube connection and
rainfall load; the day-of-year groupings; the cumulative mean (which reads
cumulative_rainfall); the mass residual (which reads it again); two plots. -/
def rainfall_cells : List NotebookCell :=
  [{ binds := ["os", "np", "sys", "xr", "datetime", "plt", "datacube", "geometry",
               "write_dataset_to_netcdf", "write_geotiff", "load_rainfall"], uses := [] },
   { binds := ["query"], uses := [] },
   { binds := ["dc", "rainfall"], uses := ["datacube", "load_rainfall", "query"] },
   { binds := ["rainfall_bydayofyear"], uses := ["rainfall"] },
   { binds := ["rainfall_dayofyear_mean"], uses := ["rainfall"] },
   { binds := ["cumulative_mean_rainfall"],
     uses := ["rainfall_dayofyear_mean", "cumulative_rainfall"] },
   { binds := ["mass_residual"], uses := ["cumulative_rainfall", "cumulative_mean_rainfall"] },
   { binds := [], uses := ["mass_residual"] },
   { binds := [], uses := ["mass_residual"] }]

/-- Running the cells in listed order with an initial set of bound names:
every referenced name not bound by the same or an earlier cell, in order of
occurrence. -/
def undefined_uses (bound : List String) : List NotebookCell → List String
  | [] => []
  | c :: rest =>
    (c.uses.filter (fun u => decide (u ∉ bound ++ c.binds))) ++
      undefined_uses (bound ++ c.binds) rest

/-! ## Parallelism constructs across the notebooks -/

/-- A parallelism-related construct appearing in a notebook: the connection of
a dask.distributed Client to a scheduler address, or the use of a
pathos.multiprocessing ProcessingPool with a worker count. -/
inductive ParallelConstruct where
  | daskClient (scheduler : String)
  | processPool (ncpus : Nat)
  deriving DecidableEq

/-- Dask average-colour notebook: client = Client(dask-datacube-dask.labs:8786). -/
def dask_notebook_parallelism : List ParallelConstruct :=
  [.daskClient "dask-datacube-dask.labs:8786"]

/-- Tiled parallel image segmentation notebook: it imports ProcessingPool
as Pool from pathos.multiprocessing; ncpus=5 is passed to
tiledSegParallel.performTiledSegmentation, which runs the segmentation across
the pool of 5 worker processes. -/
def tiled_segmentation_parallelism : List ParallelConstruct := [.processPool 5]

/-- No other notebook in the source contains a parallelism construct. -/
def other_notebooks_parallelism : List ParallelConstruct := []

/-- All parallelism constructs across every notebook of the source. -/
def all_notebook_parallelism : List ParallelConstruct :=
  dask_notebook_parallelism ++ tiled_segmentation_parallelism ++ other_notebooks_parallelism

/-- Whether a parallelism construct is a Dask client connection. -/
def is_dask_client : ParallelConstruct → Bool
  | .daskClient _ => true
  | _ => false

/-! ## Realisation of the operations the spec names -/

/-- Where the code realising an operation comes from: a call into an external
library package, a call into a module shipped inside this repository, or
inline arithmetic written directly in the notebook cell. -/
inductive ImportOrigin where
  | externalLib (package : String)
  | repoModule (path : String)
  | inlineArithmetic
  deriving DecidableEq

/-- How one spec-named operation is realised: the expression or callee of its
notebook cell, and the origin of that code. -/
structure OpRealisation where
  operation : String
  callee : String
  origin : ImportOrigin
  deriving DecidableEq

/-- The realisations of the operations the spec names, transcribed from the
notebook cells and their import statements.  calculate_indices comes from
utils/dea_bandindices.py, tidal_tag from utils/waterline_funcs.py and
performTiledSegmentation from 10_Scripts/tiledSegParallel.py (imported via
sys.path.append(../10_Scripts)), all modules of this repository; ttest_ind
comes from scipy and Dataset.interp from xarray, external libraries; the
MNDWI, NDWI and NDCI indices are inline arithmetic in their cells. -/
def named_operations : List OpRealisation :=
  [{ operation := "hypothesis test", callee := "stats.ttest_ind",
     origin := .externalLib "scipy" },
   { operation := "NDVI", callee := "calculate_indices",
     origin := .repoModule "utils/dea_bandindices.py" },
   { operation := "MNDWI", callee := "(green - swir1) / (green + swir1)",
     origin := .inlineArithmetic },
   { operation := "NDWI", callee := "(green - nir) / (green + nir)",
     origin := .inlineArithmetic },
   { operation := "NDCI",
     callee := "(nbart_red_edge_1 - nbart_red) / (nbart_red_edge_1 + nbart_red)",
     origin := .inlineArithmetic },
   { operation := "tide tagging (coastal erosion)", callee := "waterline_funcs.tidal_tag",
     origin := .repoModule "utils/waterline_funcs.py" },
   { operation := "tide tagging (intertidal)", callee := "tide_data_xr.interp",
     origin := .externalLib "xarray" },
   { operation := "image segmentation", callee := "tiledSegParallel.performTiledSegmentation",
     origin := .repoModule "10_Scripts/tiledSegParallel.py" }]

/-- Whether a realisation is a call into an external library. -/
def is_external (o : OpRealisation) : Bool :=
  match o.origin with
  | .externalLib _ => true
  | _ => false

/-- Whether a realisation is a call into a repository module. -/
def is_repo_module (o : OpRealisation) : Bool :=
  match o.origin with
  | .repoModule _ => true
  | _ => false

/-- Whether a realisation is inline arithmetic in the notebook cell. -/
def is_inline (o : OpRealisation) : Bool :=
  match o.origin with
  | .inlineArithmetic => true
  | _ => false

/-! ## Site-matching loop

Timestamps are integers in seconds (datetime64 values are exact integers);
floating-point values that can be NaN are Option ℚ with none for NaN. -/

/-- The satellite data and ground observations of one site, as the loop sees
them: the site name, the timestamps of the loaded Sentinel-2 series, the two
band values at the pixel nearest the site for each timestamp, and the ground
observation for each site date (site_values, one entry per date). -/
structure SiteData where
  name : String
  times : List Int
  red : Int → Option ℚ
  rededge : Int → Option ℚ
  site_values : List (Option ℚ)

/-- The seven accumulator lists of the site-matching loop. -/
structure MatchState where
  site_names : List String
  match_dates : List Int
  match_values : List (Option ℚ)
  ndci_values : List (Option ℚ)
  red_values : List (Option ℚ)
  rededge_values : List (Option ℚ)
  time_deltas : List Int

/-- The seven lists all start empty. -/
def empty_match_state : MatchState := ⟨[], [], [], [], [], [], []⟩

/-- ds_s2.sel(time=target, method="nearest"): the timestamp of the series
closest to the target (the earlier one on a tie); none only for an empty
series, on which the source call would raise instead of recording a row. -/
def nearest_time (times : List Int) (target : Int) : Option Int :=
  times.foldl
    (fun acc t =>
      match acc with
      | none => some t
      | some b => if (t - target).natAbs < (b - target).natAbs then some t else some b)
    none

/-- time_delta.days of the absolute pandas Timedelta between two timestamps in
seconds: the whole-day part of the separation, truncated. -/
def delta_days (a b : Int) : Int := (((a - b).natAbs / 86400 : ℕ) : ℤ)

/-- round(x, 4).  Python rounds half to even; the model rounds half up — the
two agree except at exact half ties, which no claim concerns. -/
def round4 (x : ℚ) : ℚ := ((round (x * 10000) : ℤ) : ℚ) / 10000

/-- The body of the inner date loop of the site-matching notebook for one
(site, count, date) triple: take the nearest timestep; if it is within
obs_window whole days, compute NDCI at the nearest pixel and, when neither the
NDCI value nor the ground observation site_values[count] is NaN, append one
entry to each of the seven lists.  NDCI is (re - r)/(re + r); with the
nonnegative reflectance bands a zero denominator only arises as 0/0, which is
NaN in the source. -/
def site_match_step (obs_window : Int) (site : SiteData) (st : MatchState)
    (count : Nat) (date : Int) : MatchState :=
  match nearest_time site.times date with
  | none => st
  | some t_closest =>
    if delta_days date t_closest ≤ obs_window then
      match site.red t_closest, site.rededge t_closest, site.site_values.getD count none with
      | some r, some re, some obs_value =>
        if re + r = 0 then st
        else
          { site_names := st.site_names ++ [site.name]
            match_dates := st.match_dates ++ [date]
            match_values := st.match_values ++ [some obs_value]
            ndci_values := st.ndci_values ++ [some (round4 ((re - r) / (re + r)))]
            red_values := st.red_values ++ [some r]
            rededge_values := st.rededge_values ++ [some re]
            time_deltas := st.time_deltas ++ [delta_days date t_closest] }
      | _, _, _ => st
    else st

/-- The full site-matching loop: for site in locations, for count, date in
enumerate(site_dates), run the body.  The resulting state holds the columns
written to MatchedData.csv. -/
def site_match_loop (obs_window : Int) (sites : List SiteData) (site_dates : List Int) :
    MatchState :=
  sites.foldl
    (fun st site =>
      site_dates.enum.foldl (fun st2 cd => site_match_step obs_window site st2 cd.1 cd.2) st)
    empty_match_state

/-- The loop invariant of the site-matching claim: the seven lists have equal
length, every recorded whole-day time delta is at most obs_window, and every
recorded NDCI and ground-observation value is non-NaN. -/
def MatchInvariant (obs_window : Int) (st : MatchState) : Prop :=
  st.match_dates.length = st.site_names.length ∧
  st.match_values.length = st.site_names.length ∧
  st.ndci_values.length = st.site_names.length ∧
  st.red_values.length = st.site_names.length ∧
  st.rededge_values.length = st.site_names.length ∧
  st.time_deltas.length = st.site_names.length ∧
  (∀ d ∈ st.time_deltas, d ≤ obs_window) ∧
  (∀ v ∈ st.ndci_values, v.isSome = true) ∧
  (∀ v ∈ st.match_values, v.isSome = true)

/-- A concrete site for evaluating the loop: one satellite timestep 687600
seconds (7 days 23 hours) after time zero, finite band values 1 and 3, one
ground observation 0.2. -/
def demo_site : SiteData :=
  { name := "Coorong", times := [687600], red := fun _ => some 1,
    rededge := fun _ => some 3, site_values := [some (2/10)] }

end DeaNotebooks

namespace DeaNotebooks

/-! ## Theorems -/

/-- The normalised-difference bound behind every index of the family
(A - B)/(A + B). -/
theorem normalised_diff_bounds (a b : ℚ) (ha : 0 ≤ a) (hb : 0 ≤ b)
    (hab : ¬(a = 0 ∧ b = 0)) : -1 ≤ (a - b) / (a + b) ∧ (a - b) / (a + b) ≤ 1 := by
  have hpos : 0 < a + b := by
    rcases lt_or_eq_of_le ha with h | h
    · linarith
    · rcases lt_or_eq_of_le hb with h2 | h2
      · linarith
      · exact absurd ⟨h.symm, h2.symm⟩ hab
  constructor
  · rw [le_div_iff₀ hpos]
    linarith
  · rw [div_le_one hpos]
    linarith

/-- Claim C5: every spectral index the notebooks compute (MNDWI, NDWI, NDCI,
NDVI) is the normalised band ratio (A - B)/(A + B) of its two bands, and for
nonnegative band values that are not both zero the index lies in [-1, 1]. -/
theorem claim_C5_band_indices (a b : ℚ) (ha : 0 ≤ a) (hb : 0 ≤ b)
    (hab : ¬(a = 0 ∧ b = 0)) :
    water_index_mndwi a b = (a - b) / (a + b) ∧
    water_index_ndwi a b = (a - b) / (a + b) ∧
    ndci a b = (a - b) / (a + b) ∧
    NDVI a b = (a - b) / (a + b) ∧
    (-1 ≤ water_index_mndwi a b ∧ water_index_mndwi a b ≤ 1) ∧
    (-1 ≤ water_index_ndwi a b ∧ water_index_ndwi a b ≤ 1) ∧
    (-1 ≤ ndci a b ∧ ndci a b ≤ 1) ∧
    (-1 ≤ NDVI a b ∧ NDVI a b ≤ 1) := by
  have h := normalised_diff_bounds a b ha hb hab
  exact ⟨rfl, rfl, rfl, rfl, h, h, h, h⟩

/-- Witness for claim C5 at the concrete bands a = 3, b = 1. -/
theorem claim_C5_band_indices_witness :
    (0 : ℚ) ≤ 3 ∧ (0 : ℚ) ≤ 1 ∧ ¬((3 : ℚ) = 0 ∧ (1 : ℚ) = 0) ∧
    (-1 ≤ water_index_mndwi 3 1 ∧ water_index_mndwi 3 1 ≤ 1) := by
  refine ⟨by norm_num, by norm_num, by norm_num, ?_⟩
  exact (claim_C5_band_indices 3 1 (by norm_num) (by norm_num) (by norm_num)).2.2.2.2.1

/-- Every clipped, scaled, truncated channel lies in [0, 255]. -/
theorem rgb_channel_range (x : ℚ) : 0 ≤ rgb_channel x ∧ rgb_channel x ≤ 255 := by
  have h0 : (0 : ℚ) ≤ clip01 x := le_max_left 0 (min x 1)
  have h1 : clip01 x ≤ 1 := max_le (by norm_num) (min_le_right x 1)
  have hlo : (0 : ℚ) ≤ clip01 x * 255 := by positivity
  have hhi : clip01 x * 255 ≤ 255 := by nlinarith
  have hpy : rgb_channel x = ⌊clip01 x * 255⌋ := by
    simp [rgb_channel, pyInt, hlo]
  constructor
  · rw [hpy]
    exact Int.floor_nonneg.mpr hlo
  · rw [hpy]
    calc ⌊clip01 x * 255⌋ ≤ ⌊(255 : ℚ)⌋ := Int.floor_le_floor hhi
    _ = 255 := by norm_num

/-- Claim C9: for finite (non-NaN) red, green and blue inputs, get_rgb returns
three integer channel values each in the range 0..255 (each scaled band being
clipped to [0,1] before scaling by 255), together with a hex string of exactly
seven characters beginning with the # character. -/
theorem claim_C9_get_rgb (red green blue : ℚ) :
    (0 ≤ (get_rgb red green blue).1.1 ∧ (get_rgb red green blue).1.1 ≤ 255) ∧
    (0 ≤ (get_rgb red green blue).1.2.1 ∧ (get_rgb red green blue).1.2.1 ≤ 255) ∧
    (0 ≤ (get_rgb red green blue).1.2.2 ∧ (get_rgb red green blue).1.2.2 ≤ 255) ∧
    (get_rgb red green blue).2.length = 7 ∧
    (get_rgb red green blue).2.data.head? = some '#' := by
  refine ⟨rgb_channel_range red, rgb_channel_range green, rgb_channel_range blue, rfl, rfl⟩

/-- The two Forestry samples split the length of the time series exactly. -/
theorem baseline_postbaseline_length (ds : List (Int × ℚ)) (tb : Int) :
    (baseline_sample ds tb).length + (postbaseline_sample ds tb).length = ds.length := by
  induction ds with
  | nil => rfl
  | cons o t ih =>
    simp only [baseline_sample, postbaseline_sample, List.filter_cons] at *
    by_cases hc : o.1 ≤ tb
    · rw [if_pos (by simpa using hc), if_neg (by simpa using not_lt.mpr hc)]
      simp only [List.length_cons]
      omega
    · rw [if_neg (by simpa using hc), if_pos (by simpa using not_le.mp hc)]
      simp only [List.length_cons]
      omega

/-- Claim C8: in the Forestry notebook, for any time_baseline the baseline
sample (time <= time_baseline) and the postbaseline sample
(time > time_baseline) partition the loaded NDVI time series: the two sample
sizes add up to the full series, and every observation of the series belongs
to exactly one of the two samples. -/
theorem claim_C8_forestry_partition (ds : List (Int × ℚ)) (tb : Int) :
    (baseline_sample ds tb).length + (postbaseline_sample ds tb).length = ds.length ∧
    ∀ o ∈ ds,
      (o ∈ baseline_sample ds tb ∧ o ∉ postbaseline_sample ds tb) ∨
      (o ∉ baseline_sample ds tb ∧ o ∈ postbaseline_sample ds tb) := by
  refine ⟨baseline_postbaseline_length ds tb, ?_⟩
  intro o ho
  by_cases hc : o.1 ≤ tb
  · left
    refine ⟨List.mem_filter.mpr ⟨ho, by simpa using hc⟩, ?_⟩
    intro hmem
    have h2 := (List.mem_filter.mp hmem).2
    simp only [gt_iff_lt, decide_eq_true_eq] at h2
    exact absurd h2 (not_lt.mpr hc)
  · right
    refine ⟨?_, List.mem_filter.mpr ⟨ho, by simpa using not_le.mp hc⟩⟩
    intro hmem
    have h2 := (List.mem_filter.mp hmem).2
    simp only [decide_eq_true_eq] at h2
    exact hc h2

/-- Witness for claim C8 on the concrete series [(0, 1/2), (5, 1/3)] with
time_baseline 3, at the observation (0, 1/2). -/
theorem claim_C8_forestry_partition_witness :
    ((0, (1 : ℚ)/2) ∈ baseline_sample [((0 : Int), (1 : ℚ)/2), (5, 1/3)] 3 ∧
     (0, (1 : ℚ)/2) ∉ postbaseline_sample [((0 : Int), (1 : ℚ)/2), (5, 1/3)] 3) ∨
    ((0, (1 : ℚ)/2) ∉ baseline_sample [((0 : Int), (1 : ℚ)/2), (5, 1/3)] 3 ∧
     (0, (1 : ℚ)/2) ∈ postbaseline_sample [((0 : Int), (1 : ℚ)/2), (5, 1/3)] 3) :=
  (claim_C8_forestry_partition [((0 : Int), (1 : ℚ)/2), (5, 1/3)] 3).2
    (0, (1 : ℚ)/2) (List.mem_cons_self _ _)

/-- Mapping each timestamp to a (timestamp, value) pair and projecting the
timestamps back is the identity. -/
theorem map_fst_pair {α : Type} (f : ℚ → α) (times : List ℚ) :
    (times.map (fun t => (t, f t))).map Prod.fst = times := by
  induction times with
  | nil => rfl
  | cons h t ih => simp only [List.map_cons, ih]

/-- Claim C4: in both tide-tagging notebooks the height attached to each
observation is produced by the tidal source (the external OTPS model in the
coastal notebook, the interpolated tide table in the intertidal notebook), and
after tagging the dataset carries exactly one tide_height entry per
observation timestamp: the tagged timestamps are exactly the observation
timestamps, in order, and each timestamp occurrence carries the value the
tidal source gives it. -/
theorem claim_C4_tide_tagging (otps_model : ℚ → ℚ) (tide_data : List (ℚ × ℚ))
    (times : List ℚ) :
    (tidal_tag otps_model times).map Prod.fst = times ∧
    (tidal_tag otps_model times).length = times.length ∧
    (∀ t ∈ times, (t, otps_model t) ∈ tidal_tag otps_model times) ∧
    (tidal_tag_interp tide_data times).map Prod.fst = times ∧
    (tidal_tag_interp tide_data times).length = times.length ∧
    (∀ t ∈ times, (t, interp_tide tide_data t) ∈ tidal_tag_interp tide_data times) := by
  refine ⟨?_, ?_, ?_, ?_, ?_, ?_⟩
  · exact map_fst_pair otps_model times
  · simp [tidal_tag]
  · intro t ht
    exact List.mem_map_of_mem (fun t => (t, otps_model t)) ht
  · exact map_fst_pair (interp_tide tide_data) times
  · simp [tidal_tag_interp]
  · intro t ht
    exact List.mem_map_of_mem (fun t => (t, interp_tide tide_data t)) ht

/-- Witness for claim C4 on the tide table [(0, 1), (2, 3)] and the single
observation timestamp 1 (interpolated height 2). -/
theorem claim_C4_tide_tagging_witness :
    ((1 : ℚ), ((1 : ℚ) + 1)) ∈ tidal_tag (fun t => t + 1) [1] ∧
    ((1 : ℚ), interp_tide [(0, 1), (2, 3)] 1) ∈ tidal_tag_interp [(0, 1), (2, 3)] [1] :=
  ⟨(claim_C4_tide_tagging (fun t => t + 1) [(0, 1), (2, 3)] [1]).2.2.1 1 (List.mem_cons_self _ _),
   (claim_C4_tide_tagging (fun t => t + 1) [(0, 1), (2, 3)] [1]).2.2.2.2.2 1 (List.mem_cons_self _ _)⟩

/-- One line per slice when a single z value is requested. -/
theorem contour_extract_single_length {α : Type} (z : ℚ) (slices : List α) :
    (contour_extract [z] slices).length = slices.length := by
  induction slices with
  | nil => rfl
  | cons s t ih =>
    have hstep : contour_extract [z] (s :: t) = (s, z) :: contour_extract [z] t := rfl
    rw [hstep, List.length_cons, ih, List.length_cons]

/-- Claim C6: waterline and depth-contour extraction traces iso-value
boundaries at exactly the water-index value 0 and no other threshold: every
contour_extract call of the source passes z_values = [0], and over the summary
rasters it produces one vector line per time step (coastal erosion notebook)
and one per tidal interval (intertidal notebook). -/
theorem claim_C6_contour_zero {α : Type} (summary_slices interval_slices : List α) :
    (∀ c ∈ all_contour_calls, c.z_values = [0]) ∧
    (contour_extract coastal_contour_call.z_values summary_slices).length =
      summary_slices.length ∧
    (contour_extract intertidal_contour_call.z_values interval_slices).length =
      interval_slices.length := by
  refine ⟨?_, ?_, ?_⟩
  · intro c hc
    fin_cases hc <;> rfl
  · exact contour_extract_single_length 0 summary_slices
  · exact contour_extract_single_length 0 interval_slices

/-- Witness for claim C6: the coastal call requests z value 0, and over three
summary slices the extraction yields three lines. -/
theorem claim_C6_contour_zero_witness :
    coastal_contour_call.z_values = [0] ∧
    (contour_extract coastal_contour_call.z_values [(1 : ℕ), 2, 3]).length = 3 :=
  ⟨(claim_C6_contour_zero ([] : List ℕ) []).1 coastal_contour_call (List.mem_cons_self _ _),
   (claim_C6_contour_zero [(1 : ℕ), 2, 3] ([] : List ℕ)).2.1⟩

/-- Claim C7: the Do-it-yourself tutorial notebook contains code cells whose
assignments are syntactically incomplete (coordinates, box_size and ndvi have
no right-hand side), so the notebook cannot run end-to-end before an analyst
fills them in. -/
theorem claim_C7_diy_incomplete :
    "coordinates" ∈ incomplete_assignments diy_cells ∧
    "box_size" ∈ incomplete_assignments diy_cells ∧
    "ndvi" ∈ incomplete_assignments diy_cells ∧
    incomplete_assignments diy_cells ≠ [] := by decide

/-- Claim C3 (code evaluation): running the cells of the rainfall notebook in
listed order reaches references to cumulative_rainfall, a name no earlier or
same cell binds — the cumulative-mean cell and the mass-residual cell each
read it, so the notebook raises NameError instead of running linearly. -/
theorem claim_C3_rainfall_undefined_use :
    undefined_uses [] rainfall_cells = ["cumulative_rainfall", "cumulative_rainfall"] ∧
    (∀ c ∈ rainfall_cells, "cumulative_rainfall" ∉ c.binds) := by decide

/-- Claim C1 counterexample: the parallelism constructs appearing across the
notebooks are not just the single Dask client connection — the tiled parallel
segmentation notebook uses a multiprocessing pool of 5 workers. -/
theorem claim_C1_counterexample :
    ¬ (all_notebook_parallelism =
        [ParallelConstruct.daskClient "dask-datacube-dask.labs:8786"]) ∧
    ParallelConstruct.processPool 5 ∈ all_notebook_parallelism := by decide

/-- Claim C1 as amended: the parallelism constructs across all notebooks are
exactly the one connection to the pre-built Dask scheduler and the
5-worker ProcessingPool of the tiled segmentation notebook; the Dask client
connection occurs exactly once. -/
theorem claim_C1_parallelism_inventory :
    all_notebook_parallelism =
      [ParallelConstruct.daskClient "dask-datacube-dask.labs:8786",
       ParallelConstruct.processPool 5] ∧
    (all_notebook_parallelism.filter is_dask_client).length = 1 ∧
    other_notebooks_parallelism = [] := by decide

/-- Claim C2 counterexample: not every spec-named operation is a single call
into an external statistical/GIS library — the image segmentation is a call
into the repository module 10_Scripts/tiledSegParallel.py. -/
theorem claim_C2_counterexample :
    (named_operations.all is_external) = false ∧
    ({ operation := "image segmentation",
       callee := "tiledSegParallel.performTiledSegmentation",
       origin := ImportOrigin.repoModule "10_Scripts/tiledSegParallel.py" } : OpRealisation) ∈
      named_operations := by decide

/-- Claim C2 as amended: of the spec-named operations, the hypothesis test
(scipy) and the intertidal tide interpolation (xarray) are single external
library calls; NDVI, the coastal tide tagging and the image segmentation go
through modules shipped in the repository; and the MNDWI, NDWI and NDCI
indices are inline arithmetic in their notebook cells. -/
theorem claim_C2_operation_realisations :
    (named_operations.filter is_external).map OpRealisation.operation =
      ["hypothesis test", "tide tagging (intertidal)"] ∧
    (named_operations.filter is_repo_module).map OpRealisation.operation =
      ["NDVI", "tide tagging (coastal erosion)", "image segmentation"] ∧
    (named_operations.filter is_inline).map OpRealisation.operation =
      ["MNDWI", "NDWI", "NDCI"] := by decide

/-- Appending one row with an in-window delta and non-NaN values preserves the
site-matching invariant. -/
theorem match_invariant_append (w : Int) (st : MatchState) (nm : String) (date : Int)
    (obs ndciv redv reev : Option ℚ) (d : Int)
    (h : MatchInvariant w st) (hd : d ≤ w) (hn : ndciv.isSome = true)
    (ho : obs.isSome = true) :
    MatchInvariant w
      { site_names := st.site_names ++ [nm], match_dates := st.match_dates ++ [date],
        match_values := st.match_values ++ [obs], ndci_values := st.ndci_values ++ [ndciv],
        red_values := st.red_values ++ [redv], rededge_values := st.rededge_values ++ [reev],
        time_deltas := st.time_deltas ++ [d] } := by
  obtain ⟨h1, h2, h3, h4, h5, h6, h7, h8, h9⟩ := h
  refine ⟨?_, ?_, ?_, ?_, ?_, ?_, ?_, ?_, ?_⟩
  · simp [List.length_append, h1]
  · simp [List.length_append, h2]
  · simp [List.length_append, h3]
  · simp [List.length_append, h4]
  · simp [List.length_append, h5]
  · simp [List.length_append, h6]
  · intro x hx
    rcases List.mem_append.mp hx with hx | hx
    · exact h7 x hx
    · rw [List.mem_singleton.mp hx]
      exact hd
  · intro x hx
    rcases List.mem_append.mp hx with hx | hx
    · exact h8 x hx
    · rw [List.mem_singleton.mp hx]
      exact hn
  · intro x hx
    rcases List.mem_append.mp hx with hx | hx
    · exact h9 x hx
    · rw [List.mem_singleton.mp hx]
      exact ho

/-- One pass of the inner loop body preserves the site-matching invariant. -/
theorem site_match_step_invariant (w : Int) (site : SiteData) (st : MatchState)
    (count : Nat) (date : Int) (h : MatchInvariant w st) :
    MatchInvariant w (site_match_step w site st count date) := by
  cases hne : nearest_time site.times date with
  | none => simpa [site_match_step, hne] using h
  | some tc =>
    simp only [site_match_step, hne]
    by_cases hd : delta_days date tc ≤ w
    · rw [if_pos hd]
      split
      next r re obs_value hr hre hv =>
        by_cases hz : re + r = 0
        · rw [if_pos hz]
          exact h
        · rw [if_neg hz]
          exact match_invariant_append w st site.name date (some obs_value)
            (some (round4 ((re - r) / (re + r)))) (some r) (some re)
            (delta_days date tc) h hd rfl rfl
      next => exact h
    · rw [if_neg hd]
      exact h

/-- Folding a step that preserves the invariant preserves the invariant. -/
theorem foldl_match_invariant {α : Type} (w : Int) (f : MatchState → α → MatchState)
    (hf : ∀ st a, MatchInvariant w st → MatchInvariant w (f st a)) :
    ∀ (l : List α) (st : MatchState), MatchInvariant w st → MatchInvariant w (l.foldl f st) := by
  intro l
  induction l with
  | nil => intro st h; exact h
  | cons a t ih => intro st h; exact ih (f st a) (hf st a h)

/-- The empty accumulator state satisfies the invariant. -/
theorem empty_match_state_invariant (w : Int) : MatchInvariant w empty_match_state := by
  refine ⟨rfl, rfl, rfl, rfl, rfl, rfl, ?_, ?_, ?_⟩ <;>
    exact fun x hx => absurd hx (List.not_mem_nil x)

/-- Claim C10 as amended: after the site-matching loop the seven accumulator
lists have equal length, every recorded TimeDelta (the whole-day part of the
separation from the nearest satellite timestep) is at most obs_window — so the
nearest timestep is strictly less than obs_window + 1 days away, though it may
exceed obs_window days — and every recorded NDCI and ground-observation value
is non-NaN; hence every row of MatchedData.csv has TimeDelta <= obs_window and
a non-NaN NDCI. -/
theorem claim_C10_site_matching (w : Int) (sites : List SiteData) (dates : List Int) :
    MatchInvariant w (site_match_loop w sites dates) := by
  unfold site_match_loop
  refine foldl_match_invariant w _ ?_ sites empty_match_state (empty_match_state_invariant w)
  intro st site hst
  exact foldl_match_invariant w _
    (fun st2 cd h2 => site_match_step_invariant w site st2 cd.1 cd.2 h2) dates.enum st hst

/-- Witness for claim C10 on the concrete demo site and window 7. -/
theorem claim_C10_site_matching_witness :
    (site_match_loop 7 [demo_site] [0]).time_deltas.length =
      (site_match_loop 7 [demo_site] [0]).site_names.length ∧
    ∀ d ∈ (site_match_loop 7 [demo_site] [0]).time_deltas, d ≤ 7 :=
  ⟨(claim_C10_site_matching 7 [demo_site] [0]).2.2.2.2.2.1,
   (claim_C10_site_matching 7 [demo_site] [0]).2.2.2.2.2.2.1⟩

/-- Claim C10 counterexample: with obs_window = 7 the loop records a match
whose nearest satellite timestep is 687600 seconds — more than 7 days —
from the ground observation date, because time_delta.days truncates to whole
days (687600 s is 7 days 23 h, truncated to 7 ≤ 7). -/
theorem claim_C10_counterexample :
    nearest_time demo_site.times 0 = some 687600 ∧
    ¬ ((687600 : Int) - 0 ≤ 7 * 86400) ∧
    (site_match_loop 7 [demo_site] [0]).site_names = ["Coorong"] ∧
    (site_match_loop 7 [demo_site] [0]).time_deltas = [7] := by
  refine ⟨rfl, by decide, ?_⟩
  norm_num [site_match_loop, site_match_step, nearest_time, delta_days, demo_site,
    List.enum, List.enumFrom, empty_match_state, List.getD]

end DeaNotebooks
